import Mathlib

/-!
Verification of the Ameath desktop-pet core engine against its specification.

The Python source is shallowly embedded: Qt window positions and rectangle
geometry become integers (`Int`), Python floats become exact rationals (`ℚ`),
stateful methods become pure state-passing functions, and side effects
(timer arming, settings persistence, signal emission, per-instance fan-out)
become explicit event traces.  Qt's `QRect` uses the historical convention
`right = left + width - 1`, `bottom = top + height - 1`; the embedding keeps
that convention.  Python's floor division `//` is `Int.fdiv`; C++/Qt integer
division (used by `QRect.center`) truncates toward zero and is `Int.tdiv`.
-/

namespace Ameath

/-! ## PetStateMachine (src/pet/state_machine.py) -/

/-- The four boolean flags of `PetStateMachine`, with the source defaults. -/
structure PetStateMachine where
  is_dragging : Bool := false
  follow_mouse : Bool := false
  move_enabled : Bool := true
  in_rest : Bool := false
deriving DecidableEq, Repr

/-- Source `begin_drag`: enter the drag state; dragging always interrupts rest. -/
def begin_drag (s : PetStateMachine) : PetStateMachine :=
  { s with is_dragging := true, in_rest := false }

/-- Source `end_drag`: clear only the drag flag. -/
def end_drag (s : PetStateMachine) : PetStateMachine :=
  { s with is_dragging := false }

/-- Source `set_follow_mouse(enabled)`: set the follow flag; when enabling, also
restore movement and exit rest, mirroring the two assignments guarded by
`if enabled` in the source. -/
def set_follow_mouse (s : PetStateMachine) (enabled : Bool) : PetStateMachine :=
  let s1 := { s with follow_mouse := enabled }
  if enabled then { s1 with move_enabled := true, in_rest := false } else s1

/-- Source `toggle_follow_mouse`: reuses `set_follow_mouse`. -/
def toggle_follow_mouse (s : PetStateMachine) : PetStateMachine :=
  set_follow_mouse s (!s.follow_mouse)

/-- Source `stop_move`: disable movement and also disable following. -/
def stop_move (s : PetStateMachine) : PetStateMachine :=
  { s with move_enabled := false, follow_mouse := false }

/-- Source `start_move`: re-enable movement. -/
def start_move (s : PetStateMachine) : PetStateMachine :=
  { s with move_enabled := true }

/-- Source `set_move_enabled(enabled)`: dispatch to `start_move` / `stop_move`. -/
def set_move_enabled (s : PetStateMachine) (enabled : Bool) : PetStateMachine :=
  if enabled then start_move s else stop_move s

/-- Source `enter_rest`: set only the rest flag. -/
def enter_rest (s : PetStateMachine) : PetStateMachine :=
  { s with in_rest := true }

/-- Source `exit_rest`: clear only the rest flag. -/
def exit_rest (s : PetStateMachine) : PetStateMachine :=
  { s with in_rest := false }

/-- Source `state_key`: the effective state, resolved by the fixed priority
drag > follow > rest > move. -/
def state_key (s : PetStateMachine) : String :=
  if s.is_dragging then "drag"
  else if s.follow_mouse then "follow"
  else if s.in_rest then "rest"
  else "move"

/-! ## Movement geometry (src/pet/movement.py) -/

/-- A Qt `QRect` given by left, top, width, height. -/
structure QRect where
  left : Int
  top : Int
  width : Int
  height : Int
deriving DecidableEq, Repr

/-- Qt convention: `QRect.right() = left + width - 1`. -/
def QRect.right (g : QRect) : Int := g.left + g.width - 1

/-- Qt convention: `QRect.bottom() = top + height - 1`. -/
def QRect.bottom (g : QRect) : Int := g.top + g.height - 1

/-- Configured constant `MOVE_TICK_MS = 16`. -/
def MOVE_TICK_MS : ℚ := 16

/-- Configured constant `CROSS_SCREEN_SECONDS = 20.0`. -/
def CROSS_SCREEN_SECONDS : ℚ := 20

/-- Configured constant `FOLLOW_SPEED_MULTIPLIER = 1.4`. -/
def FOLLOW_SPEED_MULTIPLIER : ℚ := 14 / 10

/-- Source `travel_px = max(1, geometry.width() - self.pet.width())` inside
`_base_speed_x`. -/
def travel_px_x (g : QRect) (petW : Int) : Int := max 1 (g.width - petW)

/-- Source `travel_px = max(1, geometry.height() - self.pet.height())` inside
`_base_speed_y`. -/
def travel_px_y (g : QRect) (petH : Int) : Int := max 1 (g.height - petH)

/-- Source `ticks = max(1.0, (CROSS_SCREEN_SECONDS * 1000.0) / MOVE_TICK_MS)`. -/
def speed_ticks : ℚ := max 1 (CROSS_SCREEN_SECONDS * 1000 / MOVE_TICK_MS)

/-- Source `_base_speed_x`: `max(0.2, travel_px / ticks)` (floats modelled as ℚ). -/
def base_speed_x (g : QRect) (petW : Int) : ℚ :=
  max (2 / 10) ((travel_px_x g petW : ℚ) / speed_ticks)

/-- Source `_base_speed_y`: `max(0.2, travel_px / ticks)` (floats modelled as ℚ). -/
def base_speed_y (g : QRect) (petH : Int) : ℚ :=
  max (2 / 10) ((travel_px_y g petH : ℚ) / speed_ticks)

/-- Source `constrain_to_screen`: clamp the window position `(x, y)` of a window of
size `petW × petH` into the available geometry `g`, exactly as the two pairs
of `if` statements in the source (note the Qt `right()`/`bottom()`
convention).  Returns the final window position. -/
def constrain_to_screen (g : QRect) (petW petH x y : Int) : Int × Int :=
  let x1 := if x < g.left then g.left else x
  let x2 := if x1 + petW > g.right then g.right - petW else x1
  let y1 := if y < g.top then g.top else y
  let y2 := if y1 + petH > g.bottom then g.bottom - petH else y1
  (x2, y2)

/-- Frame containment: the frame of a window of size `w × h` placed at
`(x, y)` lies fully inside the available rectangle `g`. -/
def containedIn (g : QRect) (w h x y : Int) : Prop :=
  g.left ≤ x ∧ x + w ≤ g.left + g.width ∧ g.top ≤ y ∧ y + h ≤ g.top + g.height

instance (g : QRect) (w h x y : Int) : Decidable (containedIn g w h x y) := by
  unfold containedIn; infer_instance

/-! ## Follow-cursor tick (src/pet/movement.py, follow_cursor_tick) -/

/-- Python `round()` (banker's rounding, half to even), on exact rationals. -/
def pyRound (q : ℚ) : Int :=
  let f := q.floor
  let r := q - (f : ℚ)
  if r < 1 / 2 then f
  else if 1 / 2 < r then f + 1
  else if f % 2 = 0 then f else f + 1

/-- Source `max_step = max(1, int(round(base_speed * FOLLOW_SPEED_MULTIPLIER)))`. -/
def follow_max_step (g : QRect) (petW : Int) : Int :=
  max 1 (pyRound (base_speed_x g petW * FOLLOW_SPEED_MULTIPLIER))

/-- Source `target = QPoint(cursor.x() - width // 2, cursor.y() - height // 2)`
(Python floor division). -/
def follow_target (petW petH cx cy : Int) : Int × Int :=
  (cx - petW.fdiv 2, cy - petH.fdiv 2)

/-- The speed-limited step toward the cursor:
`step = max(-max_step, min(max_step, target - current))` per axis. -/
def follow_step (g : QRect) (petW petH x y cx cy : Int) : Int × Int :=
  let t := follow_target petW petH cx cy
  let m := follow_max_step g petW
  (max (-m) (min m (t.1 - x)), max (-m) (min m (t.2 - y)))

/-- Source `desired = current + step` per axis. -/
def follow_desired (g : QRect) (petW petH x y cx cy : Int) : Int × Int :=
  let step := follow_step g petW petH x y cx cy
  (x + step.1, y + step.2)

/-- The desired position clamped into
`[left, right - width] × [top, bottom - height]` (Qt inclusive edges). -/
def follow_clamped (g : QRect) (petW petH x y cx cy : Int) : Int × Int :=
  let desired := follow_desired g petW petH x y cx cy
  (max g.left (min (g.right - petW) desired.1),
   max g.top (min (g.bottom - petH) desired.2))

/-- Result of one `follow_cursor_tick`: the returned pair plus the final
window position.  The facing-direction / animation side effects of the
source are not part of the modelled outcome. -/
structure FollowOutcome where
  moved : Bool
  blocked_by_edge : Bool
  x : Int
  y : Int
deriving DecidableEq, Repr

/-- Source `follow_cursor_tick`: early-return `(False, False)` when both clamped
steps are zero; otherwise move to the clamped position when it differs from
the current one, reporting `blocked_by_edge` when clamping changed the
desired position. -/
def follow_cursor_tick (g : QRect) (petW petH x y cx cy : Int) : FollowOutcome :=
  let step := follow_step g petW petH x y cx cy
  if step.1 = 0 ∧ step.2 = 0 then ⟨false, false, x, y⟩
  else
    let desired := follow_desired g petW petH x y cx cy
    let clamped := follow_clamped g petW petH x y cx cy
    let moved : Bool := decide (clamped.1 ≠ x ∨ clamped.2 ≠ y)
    let blocked : Bool := decide (desired.1 ≠ clamped.1 ∨ desired.2 ≠ clamped.2)
    if moved then ⟨true, blocked, clamped.1, clamped.2⟩ else ⟨false, blocked, x, y⟩

/-! ## Theorems: C1, C4, C9, C3, C7 -/

/-- C1: for every combination of the four flags, `state_key` returns
`"drag"` if dragging, else `"follow"` if following, else `"rest"` if
resting, else `"move"`; being a Lean function of the flags record, it is a
pure function of the current flags. -/
theorem C1_state_key_priority :
    ∀ d f m r : Bool,
      (d = true → state_key ⟨d, f, m, r⟩ = "drag") ∧
      (d = false → f = true → state_key ⟨d, f, m, r⟩ = "follow") ∧
      (d = false → f = false → r = true → state_key ⟨d, f, m, r⟩ = "rest") ∧
      (d = false → f = false → r = false → state_key ⟨d, f, m, r⟩ = "move") := by
  decide

/-- Witness for C1 at concrete flag values. -/
theorem C1_state_key_priority_witness :
    state_key ⟨true, true, true, true⟩ = "drag" ∧
    state_key ⟨false, true, true, true⟩ = "follow" ∧
    state_key ⟨false, false, true, true⟩ = "rest" ∧
    state_key ⟨false, false, true, false⟩ = "move" :=
  ⟨(C1_state_key_priority true true true true).1 rfl,
   (C1_state_key_priority false true true true).2.1 rfl rfl,
   (C1_state_key_priority false false true true).2.2.1 rfl rfl rfl,
   (C1_state_key_priority false false true false).2.2.2 rfl rfl rfl⟩

/-- C4: for every prior state, `set_follow_mouse true` leaves
`follow_mouse = true`, `move_enabled = true`, `in_rest = false`. -/
theorem C4_set_follow_mouse_true (s : PetStateMachine) :
    (set_follow_mouse s true).follow_mouse = true ∧
    (set_follow_mouse s true).move_enabled = true ∧
    (set_follow_mouse s true).in_rest = false := by
  simp [set_follow_mouse]

/-- C9: the base-speed computations are total for every geometry (they are
Lean functions), travel distance is floored to at least 1 pixel, the tick
count to at least 1, and both base speeds are at least 0.2 px/tick. -/
theorem C9_base_speed_total (g : QRect) (petW petH : Int) :
    1 ≤ travel_px_x g petW ∧ 1 ≤ travel_px_y g petH ∧ 1 ≤ speed_ticks ∧
    (2 : ℚ) / 10 ≤ base_speed_x g petW ∧ (2 : ℚ) / 10 ≤ base_speed_y g petH :=
  ⟨le_max_left _ _, le_max_left _ _, le_max_left _ _, le_max_left _ _, le_max_left _ _⟩

/-- C3 (amended): after `constrain_to_screen`, the frame is fully contained
in the available rectangle, for every starting position, provided the
window is strictly narrower and shorter than the available rectangle. -/
theorem C3_constrain_contained (g : QRect) (petW petH x y : Int)
    (hw : petW < g.width) (hh : petH < g.height) :
    containedIn g petW petH (constrain_to_screen g petW petH x y).1
      (constrain_to_screen g petW petH x y).2 := by
  simp only [constrain_to_screen, containedIn, QRect.right, QRect.bottom]
  split_ifs <;> omega

/-- Witness for C3 at a concrete geometry and far-out starting position. -/
theorem C3_constrain_contained_witness :
    (10 : Int) < 100 ∧ (20 : Int) < 100 ∧
    containedIn ⟨0, 0, 100, 100⟩ 10 20
      (constrain_to_screen ⟨0, 0, 100, 100⟩ 10 20 250 (-250)).1
      (constrain_to_screen ⟨0, 0, 100, 100⟩ 10 20 250 (-250)).2 :=
  ⟨by decide, by decide,
   C3_constrain_contained ⟨0, 0, 100, 100⟩ 10 20 250 (-250) (by decide) (by decide)⟩

/-- C3 counterexample: a window exactly as wide as the available rectangle
ends up one pixel outside it (Qt `right()` off-by-one), for any starting
position — here `(0, 0)` on a `100 × 100` rectangle with a `100`-wide
window: the clamped x is `-1`. -/
theorem C3_counterexample :
    (constrain_to_screen ⟨0, 0, 100, 100⟩ 100 50 0 0).1 = -1 ∧
    ¬ containedIn ⟨0, 0, 100, 100⟩ 100 50
      (constrain_to_screen ⟨0, 0, 100, 100⟩ 100 50 0 0).1
      (constrain_to_screen ⟨0, 0, 100, 100⟩ 100 50 0 0).2 := by
  decide

/-- C7 (amended): when the speed-limited step is nonzero on some axis and
the window fits strictly inside the available rectangle, `moved` is true
iff the clamped position differs from the current one, and
`blocked_by_edge` is true iff the unclamped desired position lies outside
the clamp region `[left, right - width] × [top, bottom - height]`. -/
theorem C7_follow_cursor_tick (g : QRect) (petW petH x y cx cy : Int)
    (hstep : follow_step g petW petH x y cx cy ≠ (0, 0))
    (hw : petW < g.width) (hh : petH < g.height) :
    ((follow_cursor_tick g petW petH x y cx cy).moved = true ↔
      ((follow_clamped g petW petH x y cx cy).1 ≠ x ∨
       (follow_clamped g petW petH x y cx cy).2 ≠ y)) ∧
    ((follow_cursor_tick g petW petH x y cx cy).blocked_by_edge = true ↔
      ¬ (g.left ≤ (follow_desired g petW petH x y cx cy).1 ∧
         (follow_desired g petW petH x y cx cy).1 ≤ g.right - petW ∧
         g.top ≤ (follow_desired g petW petH x y cx cy).2 ∧
         (follow_desired g petW petH x y cx cy).2 ≤ g.bottom - petH)) := by
  have hcond : ¬ ((follow_step g petW petH x y cx cy).1 = 0 ∧
      (follow_step g petW petH x y cx cy).2 = 0) := by
    intro h
    exact hstep (Prod.ext h.1 h.2)
  unfold follow_cursor_tick
  rw [if_neg hcond]
  dsimp only
  have hclamp : (follow_clamped g petW petH x y cx cy).1 =
      max g.left (min (g.right - petW) (follow_desired g petW petH x y cx cy).1) ∧
      (follow_clamped g petW petH x y cx cy).2 =
      max g.top (min (g.bottom - petH) (follow_desired g petW petH x y cx cy).2) := by
    constructor <;> rfl
  constructor
  · split_ifs with hmov <;> simp_all
  · have hbox : ((follow_desired g petW petH x y cx cy).1 ≠
        (follow_clamped g petW petH x y cx cy).1 ∨
        (follow_desired g petW petH x y cx cy).2 ≠
        (follow_clamped g petW petH x y cx cy).2) ↔
      ¬ (g.left ≤ (follow_desired g petW petH x y cx cy).1 ∧
         (follow_desired g petW petH x y cx cy).1 ≤ g.right - petW ∧
         g.top ≤ (follow_desired g petW petH x y cx cy).2 ∧
         (follow_desired g petW petH x y cx cy).2 ≤ g.bottom - petH) := by
      rw [hclamp.1, hclamp.2]
      simp only [QRect.right, QRect.bottom] at *
      constructor
      · intro hne hin
        rcases hne with hne | hne <;> [exact hne (by omega); exact hne (by omega)]
      · intro hout
        by_contra hno
        push_neg at hno
        apply hout
        refine ⟨?_, ?_, ?_, ?_⟩ <;> omega
    split_ifs with hmov <;> simpa using hbox

/-- Witness for C7 at a concrete screen, window, and cursor. -/
theorem C7_follow_cursor_tick_witness :
    follow_step ⟨0, 0, 100, 100⟩ 10 10 0 0 50 50 ≠ (0, 0) ∧
    (10 : Int) < 100 ∧
    (((follow_cursor_tick ⟨0, 0, 100, 100⟩ 10 10 0 0 50 50).moved = true ↔
      ((follow_clamped ⟨0, 0, 100, 100⟩ 10 10 0 0 50 50).1 ≠ 0 ∨
       (follow_clamped ⟨0, 0, 100, 100⟩ 10 10 0 0 50 50).2 ≠ 0)) ∧
     ((follow_cursor_tick ⟨0, 0, 100, 100⟩ 10 10 0 0 50 50).blocked_by_edge = true ↔
      ¬ ((0 : Int) ≤ (follow_desired ⟨0, 0, 100, 100⟩ 10 10 0 0 50 50).1 ∧
         (follow_desired ⟨0, 0, 100, 100⟩ 10 10 0 0 50 50).1 ≤ QRect.right ⟨0, 0, 100, 100⟩ - 10 ∧
         (0 : Int) ≤ (follow_desired ⟨0, 0, 100, 100⟩ 10 10 0 0 50 50).2 ∧
         (follow_desired ⟨0, 0, 100, 100⟩ 10 10 0 0 50 50).2 ≤ QRect.bottom ⟨0, 0, 100, 100⟩ - 10))) := by
  have hm : (1 : Int) ≤ follow_max_step ⟨0, 0, 100, 100⟩ 10 := le_max_left _ _
  have htgt : follow_target 10 10 50 50 = (45, 45) := by decide
  have hstep : follow_step ⟨0, 0, 100, 100⟩ 10 10 0 0 50 50 ≠ (0, 0) := by
    intro h
    have h1 := congrArg Prod.fst h
    simp only [follow_step, htgt, sub_zero] at h1
    omega
  exact ⟨hstep, by decide,
    C7_follow_cursor_tick ⟨0, 0, 100, 100⟩ 10 10 0 0 50 50 hstep (by decide) (by decide)⟩

/-- C7 counterexample: pet at `(-50, 0)` (outside the `100 × 100`
rectangle) with the cursor exactly on the sprite's integer center gives a
zero step, so the code returns `(False, False)` — yet the clamped position
differs from the current one and the desired position lies outside the
rectangle, so the claimed iffs demand `(True, True)`. -/
theorem C7_counterexample :
    (follow_cursor_tick ⟨0, 0, 100, 100⟩ 10 10 (-50) 0 (-45) 5).moved = false ∧
    (follow_cursor_tick ⟨0, 0, 100, 100⟩ 10 10 (-50) 0 (-45) 5).blocked_by_edge = false ∧
    follow_clamped ⟨0, 0, 100, 100⟩ 10 10 (-50) 0 (-45) 5 ≠ (-50, 0) ∧
    ¬ ((0 : Int) ≤ (follow_desired ⟨0, 0, 100, 100⟩ 10 10 (-50) 0 (-45) 5).1) := by
  have hm : (1 : Int) ≤ follow_max_step ⟨0, 0, 100, 100⟩ 10 := le_max_left _ _
  have htgt : follow_target 10 10 (-45) 5 = (-50, 0) := by decide
  have h1 : min (follow_max_step ⟨0, 0, 100, 100⟩ 10) 0 = 0 := min_eq_right (by omega)
  have h2 : max (-(follow_max_step ⟨0, 0, 100, 100⟩ 10)) 0 = 0 := max_eq_right (by omega)
  have hstep : follow_step ⟨0, 0, 100, 100⟩ 10 10 (-50) 0 (-45) 5 = (0, 0) := by
    simp only [follow_step, htgt]
    norm_num [h1, h2]
  have hdes : follow_desired ⟨0, 0, 100, 100⟩ 10 10 (-50) 0 (-45) 5 = (-50, 0) := by
    simp only [follow_desired, hstep]
    norm_num
  have hcl : follow_clamped ⟨0, 0, 100, 100⟩ 10 10 (-50) 0 (-45) 5 = (0, 0) := by
    simp only [follow_clamped, hdes, QRect.right, QRect.bottom]
    norm_num
  refine ⟨?_, ?_, ?_, ?_⟩
  · unfold follow_cursor_tick
    rw [hstep]
    norm_num
  · unfold follow_cursor_tick
    rw [hstep]
    norm_num
  · rw [hcl]
    decide
  · rw [hdes]
    decide

/-! ## IdleController (src/pet/idle.py) -/

/-- Configured constant `REST_CHANCE_WHEN_MOVING = 0.23`. -/
def REST_CHANCE_WHEN_MOVING : ℚ := 23 / 100

/-- Configured constant `REST_CHANCE_WHEN_STOPPED = 0.55`. -/
def REST_CHANCE_WHEN_STOPPED : ℚ := 55 / 100

/-- Observable side effects of `IdleController.try_enter_rest`. -/
inductive IdleAction where
  | armDecisionTimer (ms : Int)
  | showRestAnimation
  | armEndTimer (ms : Int)
deriving DecidableEq, Repr

/-- Source `try_enter_rest`: re-arm the repeating decision timer first
(`schedule_next_rest_decision`), then short-circuit on drag/follow, then on
rest, then draw `sample` (models `random.random()`) against the chance that
depends on `move_enabled`.  `decisionDelay` and `restDuration` model the two
`random.randint` draws.  Returns the new state-machine flags and the ordered
trace of timer/animation effects. -/
def try_enter_rest (s : PetStateMachine) (decisionDelay : Int) (sample : ℚ)
    (restDuration : Int) : PetStateMachine × List IdleAction :=
  let arm := IdleAction.armDecisionTimer decisionDelay
  if s.is_dragging || s.follow_mouse then (s, [arm])
  else if s.in_rest then (s, [arm])
  else
    let chance := if !s.move_enabled then REST_CHANCE_WHEN_STOPPED else REST_CHANCE_WHEN_MOVING
    if chance < sample then (s, [arm])
    else (enter_rest s, [arm, IdleAction.showRestAnimation, IdleAction.armEndTimer restDuration])

/-- C8: `try_enter_rest` always re-arms the decision timer as its first
effect, and when dragging, following, or already resting it changes nothing
and performs no other effect (rest is suppressed by higher-priority states
and is not re-entrant). -/
theorem C8_try_enter_rest (s : PetStateMachine) (decisionDelay : Int) (sample : ℚ)
    (restDuration : Int) :
    (try_enter_rest s decisionDelay sample restDuration).2.head? =
      some (IdleAction.armDecisionTimer decisionDelay) ∧
    ((s.is_dragging = true ∨ s.follow_mouse = true ∨ s.in_rest = true) →
      (try_enter_rest s decisionDelay sample restDuration).1 = s ∧
      (try_enter_rest s decisionDelay sample restDuration).2 =
        [IdleAction.armDecisionTimer decisionDelay]) := by
  unfold try_enter_rest
  split_ifs <;> try simp_all
  all_goals split <;> simp_all

/-- Witness for C8 on a dragging state. -/
theorem C8_try_enter_rest_witness :
    (try_enter_rest ⟨true, false, true, false⟩ 5 0 7).2.head? =
      some (IdleAction.armDecisionTimer 5) ∧
    (try_enter_rest ⟨true, false, true, false⟩ 5 0 7).1 = ⟨true, false, true, false⟩ ∧
    (try_enter_rest ⟨true, false, true, false⟩ 5 0 7).2 = [IdleAction.armDecisionTimer 5] :=
  ⟨(C8_try_enter_rest ⟨true, false, true, false⟩ 5 0 7).1,
   ((C8_try_enter_rest ⟨true, false, true, false⟩ 5 0 7).2 (Or.inl rfl)).1,
   ((C8_try_enter_rest ⟨true, false, true, false⟩ 5 0 7).2 (Or.inl rfl)).2⟩

/-! ## InstanceManager broadcast setters (src/pet/instance_manager.py)

Each setter is modelled by the ordered trace of its observable effects on
`n` registered pets (all pets have the optional capability methods, as
`DesktopPet` does): shared-field update, settings-store persistence,
per-pet `apply_*` fan-out, and the final signal emission. -/

/-- One observable effect of a broadcast setter. -/
inductive BroadcastEvent where
  | updateShared
  | persist
  | applyPet (idx : Nat)
  | emitChange
deriving DecidableEq, Repr

/-- Source `on_set_follow`: update `state.follow_mouse`, persist via
`settings_store.set_follow_mouse`, apply to each pet, emit. -/
def on_set_follow_trace (n : Nat) : List BroadcastEvent :=
  [BroadcastEvent.updateShared, BroadcastEvent.persist] ++
    ((List.range n).map BroadcastEvent.applyPet ++ [BroadcastEvent.emitChange])

/-- Source `on_set_opacity_percent`: update `opacity_percent`, persist via
`settings_store.set_opacity_percent`, apply to each pet, emit. -/
def on_set_opacity_percent_trace (n : Nat) : List BroadcastEvent :=
  [BroadcastEvent.updateShared, BroadcastEvent.persist] ++
    ((List.range n).map BroadcastEvent.applyPet ++ [BroadcastEvent.emitChange])

/-- Source `on_set_move_enabled_all`: update `state.move_enabled`, apply to each
pet, emit — the source never calls the settings store here. -/
def on_set_move_enabled_all_trace (n : Nat) : List BroadcastEvent :=
  [BroadcastEvent.updateShared] ++
    ((List.range n).map BroadcastEvent.applyPet ++ [BroadcastEvent.emitChange])

/-- Source `on_set_autostart`: apply to each pet, emit — the source neither stores
a shared autostart value nor calls the settings store. -/
def on_set_autostart_trace (n : Nat) : List BroadcastEvent :=
  ([] : List BroadcastEvent) ++
    ((List.range n).map BroadcastEvent.applyPet ++ [BroadcastEvent.emitChange])

/-- Helper: order facts shared by all modelled broadcast-setter traces of
shape `pre ++ (applies ++ [emit])`. -/
theorem broadcast_shape (pre : List BroadcastEvent) (n : Nat)
    (hpre : BroadcastEvent.emitChange ∉ pre) :
    (pre ++ ((List.range n).map BroadcastEvent.applyPet ++
        [BroadcastEvent.emitChange])).getLast? = some BroadcastEvent.emitChange ∧
    (pre ++ ((List.range n).map BroadcastEvent.applyPet ++
        [BroadcastEvent.emitChange])).dropLast =
      pre ++ (List.range n).map BroadcastEvent.applyPet ∧
    BroadcastEvent.emitChange ∉ (pre ++ ((List.range n).map BroadcastEvent.applyPet ++
        [BroadcastEvent.emitChange])).dropLast ∧
    (∀ k, k < n → BroadcastEvent.applyPet k ∈
      (pre ++ ((List.range n).map BroadcastEvent.applyPet ++
        [BroadcastEvent.emitChange])).dropLast) := by
  refine ⟨?_, ?_, ?_, ?_⟩
  · rw [← List.append_assoc]
    exact List.getLast?_concat _
  · rw [← List.append_assoc]
    simp
  · rw [← List.append_assoc]
    simp [hpre, List.mem_append, List.mem_map]
  · intro k hk
    rw [← List.append_assoc]
    rw [List.dropLast_concat]
    exact List.mem_append.mpr (Or.inr (List.mem_map.mpr ⟨k, List.mem_range.mpr hk, rfl⟩))

/-- C6 (amended): `on_set_follow` and `on_set_opacity_percent` update the
shared value, persist it, apply it to every registered instance, and only
then emit the change notification; `on_set_move_enabled_all` updates the
shared value and applies it to every instance before emitting, but never
persists it; `on_set_autostart` applies to every instance before emitting
without updating or persisting any manager-held value. -/
theorem C6_broadcast_order (n : Nat) :
    ((on_set_follow_trace n).head? = some BroadcastEvent.updateShared ∧
     (on_set_follow_trace n).getLast? = some BroadcastEvent.emitChange ∧
     BroadcastEvent.emitChange ∉ (on_set_follow_trace n).dropLast ∧
     BroadcastEvent.persist ∈ (on_set_follow_trace n).dropLast ∧
     (∀ k, k < n → BroadcastEvent.applyPet k ∈ (on_set_follow_trace n).dropLast) ∧
     (∀ k, (on_set_follow_trace n).indexOf BroadcastEvent.persist <
       (on_set_follow_trace n).indexOf (BroadcastEvent.applyPet k))) ∧
    ((on_set_opacity_percent_trace n).head? = some BroadcastEvent.updateShared ∧
     (on_set_opacity_percent_trace n).getLast? = some BroadcastEvent.emitChange ∧
     BroadcastEvent.emitChange ∉ (on_set_opacity_percent_trace n).dropLast ∧
     BroadcastEvent.persist ∈ (on_set_opacity_percent_trace n).dropLast ∧
     (∀ k, k < n → BroadcastEvent.applyPet k ∈ (on_set_opacity_percent_trace n).dropLast) ∧
     (∀ k, (on_set_opacity_percent_trace n).indexOf BroadcastEvent.persist <
       (on_set_opacity_percent_trace n).indexOf (BroadcastEvent.applyPet k))) ∧
    ((on_set_move_enabled_all_trace n).head? = some BroadcastEvent.updateShared ∧
     (on_set_move_enabled_all_trace n).getLast? = some BroadcastEvent.emitChange ∧
     BroadcastEvent.emitChange ∉ (on_set_move_enabled_all_trace n).dropLast ∧
     BroadcastEvent.persist ∉ on_set_move_enabled_all_trace n ∧
     (∀ k, k < n → BroadcastEvent.applyPet k ∈ (on_set_move_enabled_all_trace n).dropLast)) ∧
    ((on_set_autostart_trace n).getLast? = some BroadcastEvent.emitChange ∧
     BroadcastEvent.emitChange ∉ (on_set_autostart_trace n).dropLast ∧
     BroadcastEvent.persist ∉ on_set_autostart_trace n ∧
     BroadcastEvent.updateShared ∉ on_set_autostart_trace n ∧
     (∀ k, k < n → BroadcastEvent.applyPet k ∈ (on_set_autostart_trace n).dropLast)) := by
  have h2 := broadcast_shape [BroadcastEvent.updateShared, BroadcastEvent.persist] n (by decide)
  have h1 := broadcast_shape [BroadcastEvent.updateShared] n (by decide)
  have h0 := broadcast_shape ([] : List BroadcastEvent) n (by decide)
  have hidx : ∀ k, (on_set_follow_trace n).indexOf BroadcastEvent.persist <
      (on_set_follow_trace n).indexOf (BroadcastEvent.applyPet k) := by
    intro k
    unfold on_set_follow_trace
    rw [List.cons_append, List.cons_append, List.nil_append]
    rw [List.indexOf_cons_ne _ (by decide), List.indexOf_cons_self]
    rw [List.indexOf_cons_ne _ (by simp), List.indexOf_cons_ne _ (by simp)]
    omega
  refine ⟨⟨rfl, h2.1, h2.2.2.1, ?_, h2.2.2.2, hidx⟩,
          ⟨rfl, h2.1, h2.2.2.1, ?_, h2.2.2.2, hidx⟩,
          ⟨rfl, h1.1, h1.2.2.1, ?_, h1.2.2.2⟩,
          ⟨h0.1, h0.2.2.1, ?_, ?_, h0.2.2.2⟩⟩
  · unfold on_set_follow_trace
    rw [h2.2.1]
    simp
  · unfold on_set_opacity_percent_trace
    rw [h2.2.1]
    simp
  · unfold on_set_move_enabled_all_trace
    simp [List.mem_append, List.mem_map]
  · unfold on_set_autostart_trace
    simp [List.mem_append, List.mem_map]
  · unfold on_set_autostart_trace
    simp [List.mem_append, List.mem_map]

/-- Witness for C6 at two registered pets. -/
theorem C6_broadcast_order_witness :
    BroadcastEvent.applyPet 1 ∈ (on_set_follow_trace 2).dropLast ∧
    (on_set_follow_trace 2).indexOf BroadcastEvent.persist <
      (on_set_follow_trace 2).indexOf (BroadcastEvent.applyPet 1) ∧
    BroadcastEvent.persist ∉ on_set_move_enabled_all_trace 2 :=
  ⟨(C6_broadcast_order 2).1.2.2.2.2.1 1 (by decide),
   (C6_broadcast_order 2).1.2.2.2.2.2 1,
   (C6_broadcast_order 2).2.2.1.2.2.2.1⟩

/-- C6 counterexample: the trace of `on_set_move_enabled_all` over two
registered pets contains no settings-store persistence event at all, so
this setter cannot persist before notifying. -/
theorem C6_counterexample :
    BroadcastEvent.persist ∉ on_set_move_enabled_all_trace 2 ∧
    BroadcastEvent.persist ∉ on_set_autostart_trace 2 := by
  decide

/-! ## InstanceManager registry: spawn/despawn (src/pet/instance_manager.py)

Pets are identified by `Nat` handles; the registry is the ordered list
`pets`.  `random.sample` draws and the spawn factory's successive results
are modelled as explicit list parameters.  The observable effects relevant
to quitting are collected in an event trace. -/

/-- Configured constant `INSTANCE_COUNT_MIN = 0`. -/
def INSTANCE_COUNT_MIN : Int := 0

/-- Configured constant `INSTANCE_COUNT_MAX = 50`. -/
def INSTANCE_COUNT_MAX : Int := 50

/-- Observable effects of registry operations. -/
inductive ManagerEvent where
  | closePet (id : Nat)
  | spawnPet (id : Nat)
  | persistInstanceCount (n : Int)
  | emitInstanceCount (n : Int)
  | requestQuit
deriving DecidableEq, Repr

/-- The manager fields relevant to spawn/despawn. -/
structure ManagerModel where
  pets : List Nat
  target_count : Int
deriving DecidableEq, Repr

/-- Source `_close_pet_instance`: no-op when not registered, else unregister and
run the teardown callbacks of that one pet. -/
def close_pet_instance (m : ManagerModel) (id : Nat) : ManagerModel × List ManagerEvent :=
  if id ∈ m.pets then ({ m with pets := m.pets.erase id }, [ManagerEvent.closePet id])
  else (m, [])

/-- Source `_update_target_to_current_count`: clamp the live count into the
allowed range, persist it and emit it. -/
def update_target_to_current_count (m : ManagerModel) : ManagerModel × List ManagerEvent :=
  let current := max INSTANCE_COUNT_MIN (min INSTANCE_COUNT_MAX (m.pets.length : Int))
  ({ m with target_count := current },
   [ManagerEvent.persistInstanceCount current, ManagerEvent.emitInstanceCount current])

/-- One step of the `for pet in selected: self._close_pet_instance(pet)`
loop, accumulating events. -/
def close_fold_step (acc : ManagerModel × List ManagerEvent) (id : Nat) :
    ManagerModel × List ManagerEvent :=
  let r := close_pet_instance acc.1 id
  (r.1, acc.2 ++ r.2)

/-- Source `close_random_pets(count)`: no-op on an empty registry or a
non-positive count; otherwise tear down each pet of `selected` (the
modelled `random.sample` draw) and, when `update_target`, resync the
target count.  No branch requests quitting. -/
def close_random_pets (m : ManagerModel) (selected : List Nat) (count : Int)
    (update_target : Bool) : ManagerModel × List ManagerEvent :=
  if m.pets = [] then (m, [])
  else if count ≤ 0 then (m, [])
  else
    let s := selected.foldl close_fold_step (m, ([] : List ManagerEvent))
    if update_target then
      let u := update_target_to_current_count s.1
      (u.1, s.2 ++ u.2)
    else s

/-- One step of the `while len(self._pets) < self.target_count` spawn loop:
spawn the next factory result and register it when new. -/
def spawn_fold_step (target : Int) (acc : ManagerModel × List ManagerEvent) (id : Nat) :
    ManagerModel × List ManagerEvent :=
  if (acc.1.pets.length : Int) < target ∧ id ∉ acc.1.pets then
    ({ acc.1 with pets := acc.1.pets ++ [id] }, acc.2 ++ [ManagerEvent.spawnPet id])
  else acc

/-- Source `on_set_instance_count(count)`: clamp the target, persist it, spawn up
to the target from `spawnQueue` (the successive factory results), or
despawn the excess via `close_random_pets` with `update_target=False`,
then emit.  No branch requests quitting. -/
def on_set_instance_count (m : ManagerModel) (spawnQueue selected : List Nat)
    (count : Int) : ManagerModel × List ManagerEvent :=
  let target := max INSTANCE_COUNT_MIN (min INSTANCE_COUNT_MAX count)
  let s := spawnQueue.foldl (spawn_fold_step target)
    ({ m with target_count := target }, ([] : List ManagerEvent))
  let d := if target < (s.1.pets.length : Int) then
      close_random_pets s.1 selected ((s.1.pets.length : Int) - target) false
    else (s.1, ([] : List ManagerEvent))
  (d.1, [ManagerEvent.persistInstanceCount target] ++ s.2 ++ d.2 ++
    [ManagerEvent.emitInstanceCount target])

/-- Source `close_all_pets`: the only registry operation that invokes the
process-exit callback (`self.request_quit()`). -/
def close_all_pets (m : ManagerModel) : ManagerModel × List ManagerEvent :=
  (m, [ManagerEvent.requestQuit])

/-- Helper: the teardown loop of `close_random_pets` never emits a quit
request. -/
theorem close_fold_no_quit (selected : List Nat) (m : ManagerModel)
    (evs : List ManagerEvent) (h : ManagerEvent.requestQuit ∉ evs) :
    ManagerEvent.requestQuit ∉ (selected.foldl close_fold_step (m, evs)).2 := by
  induction selected generalizing m evs with
  | nil => simpa using h
  | cons id rest ih =>
      simp only [List.foldl_cons, close_fold_step]
      apply ih
      unfold close_pet_instance
      split_ifs <;> simp_all

/-- Helper: `close_random_pets` never emits a quit request. -/
theorem close_random_pets_no_quit (m : ManagerModel) (selected : List Nat)
    (count : Int) (b : Bool) :
    ManagerEvent.requestQuit ∉ (close_random_pets m selected count b).2 := by
  unfold close_random_pets
  split_ifs with h1 h2 h3
  · simp
  · simp
  · simp only [List.mem_append]
    rintro (h | h)
    · exact close_fold_no_quit selected m [] (by simp) h
    · simp [update_target_to_current_count] at h
  · exact close_fold_no_quit selected m [] (by simp)

/-- Helper: the spawn loop never emits a quit request. -/
theorem spawn_fold_no_quit (queue : List Nat) (target : Int) (m : ManagerModel)
    (evs : List ManagerEvent) (h : ManagerEvent.requestQuit ∉ evs) :
    ManagerEvent.requestQuit ∉ (queue.foldl (spawn_fold_step target) (m, evs)).2 := by
  induction queue generalizing m evs with
  | nil => simpa using h
  | cons id rest ih =>
      simp only [List.foldl_cons]
      unfold spawn_fold_step
      split_ifs with hc
      · exact ih _ _ (by simp_all)
      · exact ih _ _ h

/-- C5 (amended): despawn operations never invoke the process-exit
callback, even when they drive the registry to empty — a zero-instance
state is left in place (the target count clamps to the configured minimum
0); the quit callback is invoked only by `close_all_pets`. -/
theorem C5_despawn_never_quits (m : ManagerModel) (sel sel2 spawnQueue : List Nat)
    (count count2 : Int) (b : Bool) :
    ManagerEvent.requestQuit ∉ (close_random_pets m sel count b).2 ∧
    ManagerEvent.requestQuit ∉ (on_set_instance_count m spawnQueue sel2 count2).2 ∧
    (close_all_pets m).2 = [ManagerEvent.requestQuit] := by
  refine ⟨close_random_pets_no_quit m sel count b, ?_, rfl⟩
  unfold on_set_instance_count
  simp only [List.mem_append, List.mem_singleton]
  rintro (((h | h) | h) | h)
  · simp at h
  · exact spawn_fold_no_quit spawnQueue _ _ _ (by simp) h
  · revert h
    split_ifs
    · exact fun h => close_random_pets_no_quit _ sel2 _ _ h
    · simp
  · simp at h

/-- C5 counterexample: closing the single live pet via
`close_random_pets(1)` empties the registry, yet the emitted trace contains
no `request_quit` invocation — the manager persists and announces a target
of 0 instead of requesting exit. -/
theorem C5_counterexample :
    (close_random_pets ⟨[0], 1⟩ [0] 1 true).1.pets = [] ∧
    ManagerEvent.requestQuit ∉ (close_random_pets ⟨[0], 1⟩ [0] 1 true).2 ∧
    (close_random_pets ⟨[0], 1⟩ [0] 1 true).2 =
      [ManagerEvent.closePet 0, ManagerEvent.persistInstanceCount 0,
       ManagerEvent.emitInstanceCount 0] := by
  decide

/-! ## InstanceManager collision resolution (src/pet/instance_manager.py)

`_resolve_pet_collisions` / `_bounce_two_pets`, modelled for a registry of
two pets.  Qt rectangle semantics (inclusive `right`/`bottom`, C++
truncating division in `QRect.center`) are spelled out explicitly. -/

/-- Qt `QRect.center().x()` (C++ integer division truncates toward zero). -/
def QRect.centerX (r : QRect) : Int := (r.left + r.right).tdiv 2

/-- Qt `QRect.center().y()`. -/
def QRect.centerY (r : QRect) : Int := (r.top + r.bottom).tdiv 2

/-- Qt `QRect.intersects`, for rectangles of positive size. -/
def qIntersects (a b : QRect) : Bool :=
  decide (max a.left b.left ≤ min a.right b.right ∧
    max a.top b.top ≤ min a.bottom b.bottom)

/-- Width of Qt `QRect.intersected` (Qt inclusive-edge convention). -/
def interW (a b : QRect) : Int := min a.right b.right - max a.left b.left + 1

/-- Height of Qt `QRect.intersected`. -/
def interH (a b : QRect) : Int := min a.bottom b.bottom - max a.top b.top + 1

/-- The per-pet fields touched by collision resolution. -/
structure CollPet where
  x : Int
  y : Int
  w : Int
  h : Int
  velocity_x : ℚ
  velocity_y : ℚ
  float_x : ℚ
  float_y : ℚ
  is_dragging : Bool
  facing_left : Bool
deriving DecidableEq, Repr

/-- Source `frameGeometry()` of a pet. -/
def CollPet.frame (p : CollPet) : QRect := ⟨p.x, p.y, p.w, p.h⟩

/-- Source `_move_pet_by_delta`: move by the delta, re-clamp to the screen, and
resynchronize the float shadow. -/
def move_pet_by_delta (g : QRect) (p : CollPet) (dx dy : Int) : CollPet :=
  let pos := constrain_to_screen g p.w p.h (p.x + dx) (p.y + dy)
  { p with x := pos.1, y := pos.2, float_x := (pos.1 : ℚ), float_y := (pos.2 : ℚ) }

/-- The push deltas `((first_dx, first_dy), (second_dx, second_dy))` of
`_bounce_two_pets`: horizontal push when the intersection's width is at
most its height, vertical otherwise; magnitude `overlap // 2 + 1`;
direction by comparing Qt centers along the push axis. -/
def push_deltas (r1 r2 : QRect) : (Int × Int) × (Int × Int) :=
  let ow := interW r1 r2
  let oh := interH r1 r2
  if ow ≤ oh then
    let shift := max 1 (ow.fdiv 2 + 1)
    if r1.centerX ≤ r2.centerX then ((-shift, 0), (shift, 0))
    else ((shift, 0), (-shift, 0))
  else
    let shift := max 1 (oh.fdiv 2 + 1)
    if r1.centerY ≤ r2.centerY then ((0, -shift), (0, shift))
    else ((0, shift), (0, -shift))

/-- Source `_bounce_two_pets`: no-op when the intersection is empty; otherwise
push both pets apart, then negate both velocity components of both pets,
then refresh the facing directions. -/
def bounce_two_pets (g : QRect) (p1 p2 : CollPet) : CollPet × CollPet :=
  if interW p1.frame p2.frame ≤ 0 ∨ interH p1.frame p2.frame ≤ 0 then (p1, p2)
  else
    let d := push_deltas p1.frame p2.frame
    let q1 := move_pet_by_delta g p1 d.1.1 d.1.2
    let q2 := move_pet_by_delta g p2 d.2.1 d.2.2
    let q1v := { q1 with velocity_x := -q1.velocity_x, velocity_y := -q1.velocity_y }
    let q2v := { q2 with velocity_x := -q2.velocity_x, velocity_y := -q2.velocity_y }
    ({ q1v with facing_left := decide (q1v.velocity_x < 0) },
     { q2v with facing_left := decide (q2v.velocity_x < 0) })

/-- One `_resolve_pet_collisions` pass over a two-pet registry: skip when
either pet is mid-drag or the frames do not intersect, else bounce. -/
def resolve_two_pets (g : QRect) (p1 p2 : CollPet) : CollPet × CollPet :=
  if p1.is_dragging then (p1, p2)
  else if p2.is_dragging then (p1, p2)
  else if qIntersects p1.frame p2.frame then bounce_two_pets g p1 p2
  else (p1, p2)

/-- Positions at which `constrain_to_screen` is the identity. -/
def clampFixed (g : QRect) (w h x y : Int) : Prop :=
  g.left ≤ x ∧ x + w ≤ g.right ∧ g.top ≤ y ∧ y + h ≤ g.bottom

instance (g : QRect) (w h x y : Int) : Decidable (clampFixed g w h x y) := by
  unfold clampFixed; infer_instance

/-- Helper: `constrain_to_screen` fixes positions in the clamp-identity
region. -/
theorem constrain_eq_self (g : QRect) (w h x y : Int) (hc : clampFixed g w h x y) :
    constrain_to_screen g w h x y = (x, y) := by
  obtain ⟨h1, h2, h3, h4⟩ := hc
  simp only [constrain_to_screen]
  split_ifs <;> simp only [Prod.mk.injEq] <;> omega

/-- Helper: for equal-size frames at nonnegative coordinates, the push
deltas of `_bounce_two_pets` separate the two frames. -/
theorem push_deltas_separates (r1 r2 : QRect)
    (hw : r1.width = r2.width) (hh : r1.height = r2.height)
    (hw1 : 1 ≤ r1.width) (hh1 : 1 ≤ r1.height)
    (hx1 : 0 ≤ r1.left) (hy1 : 0 ≤ r1.top) (hx2 : 0 ≤ r2.left) (hy2 : 0 ≤ r2.top)
    (hint : qIntersects r1 r2 = true) :
    qIntersects
      ⟨r1.left + (push_deltas r1 r2).1.1, r1.top + (push_deltas r1 r2).1.2,
        r1.width, r1.height⟩
      ⟨r2.left + (push_deltas r1 r2).2.1, r2.top + (push_deltas r1 r2).2.2,
        r2.width, r2.height⟩ = false := by
  obtain ⟨x1, y1, w1, k1⟩ := r1
  obtain ⟨x2, y2, w2, k2⟩ := r2
  simp only [qIntersects, QRect.right, QRect.bottom, decide_eq_true_eq] at hint
  simp only at hw hh hw1 hh1 hx1 hy1 hx2 hy2
  subst hw hh
  simp only [push_deltas, interW, interH, QRect.centerX, QRect.centerY,
    QRect.right, QRect.bottom, qIntersects, decide_eq_false_iff_not]
  have hfd1 : ∀ a : Int, a.fdiv 2 = a / 2 := fun a => Int.fdiv_eq_ediv a (by omega)
  have htd1 : (x1 + (x1 + w1 - 1)).tdiv 2 = (x1 + (x1 + w1 - 1)) / 2 :=
    Int.tdiv_eq_ediv (by omega) (by omega)
  have htd2 : (x2 + (x2 + w1 - 1)).tdiv 2 = (x2 + (x2 + w1 - 1)) / 2 :=
    Int.tdiv_eq_ediv (by omega) (by omega)
  have htd3 : (y1 + (y1 + k1 - 1)).tdiv 2 = (y1 + (y1 + k1 - 1)) / 2 :=
    Int.tdiv_eq_ediv (by omega) (by omega)
  have htd4 : (y2 + (y2 + k1 - 1)).tdiv 2 = (y2 + (y2 + k1 - 1)) / 2 :=
    Int.tdiv_eq_ediv (by omega) (by omega)
  simp only [htd1, htd2, htd3, htd4, hfd1]
  split_ifs <;> (simp only [Prod.fst, Prod.snd]; omega)

/-- C2 (amended): for two registered non-dragging pets with equal frame
sizes at nonnegative coordinates whose frames intersect, if the available
rectangle is large enough that the post-push clamp is the identity, then
after one collision-resolution pass the frames no longer intersect, both
velocity vectors are negated on both axes, and each pet moved exactly by
its push delta (horizontal when the intersection's width ≤ its height,
magnitude half the overlap plus one pixel, else vertical). -/
theorem C2_collision_resolution (g : QRect) (p1 p2 : CollPet)
    (hd1 : p1.is_dragging = false) (hd2 : p2.is_dragging = false)
    (hw : p1.w = p2.w) (hh : p1.h = p2.h) (hw1 : 1 ≤ p1.w) (hh1 : 1 ≤ p1.h)
    (hx1 : 0 ≤ p1.x) (hy1 : 0 ≤ p1.y) (hx2 : 0 ≤ p2.x) (hy2 : 0 ≤ p2.y)
    (hint : qIntersects p1.frame p2.frame = true)
    (hb1 : clampFixed g p1.w p1.h (p1.x + (push_deltas p1.frame p2.frame).1.1)
      (p1.y + (push_deltas p1.frame p2.frame).1.2))
    (hb2 : clampFixed g p2.w p2.h (p2.x + (push_deltas p1.frame p2.frame).2.1)
      (p2.y + (push_deltas p1.frame p2.frame).2.2)) :
    qIntersects (resolve_two_pets g p1 p2).1.frame (resolve_two_pets g p1 p2).2.frame
      = false ∧
    (resolve_two_pets g p1 p2).1.velocity_x = -p1.velocity_x ∧
    (resolve_two_pets g p1 p2).1.velocity_y = -p1.velocity_y ∧
    (resolve_two_pets g p1 p2).2.velocity_x = -p2.velocity_x ∧
    (resolve_two_pets g p1 p2).2.velocity_y = -p2.velocity_y ∧
    (resolve_two_pets g p1 p2).1.x = p1.x + (push_deltas p1.frame p2.frame).1.1 ∧
    (resolve_two_pets g p1 p2).1.y = p1.y + (push_deltas p1.frame p2.frame).1.2 ∧
    (resolve_two_pets g p1 p2).2.x = p2.x + (push_deltas p1.frame p2.frame).2.1 ∧
    (resolve_two_pets g p1 p2).2.y = p2.y + (push_deltas p1.frame p2.frame).2.2 := by
  have hne : ¬ (interW p1.frame p2.frame ≤ 0 ∨ interH p1.frame p2.frame ≤ 0) := by
    simp only [qIntersects, decide_eq_true_eq] at hint
    simp only [interW, interH]
    omega
  have hres : resolve_two_pets g p1 p2 =
      bounce_two_pets g p1 p2 := by
    unfold resolve_two_pets
    simp [hd1, hd2, hint]
  have hbounce : bounce_two_pets g p1 p2 =
      (let d := push_deltas p1.frame p2.frame
       let q1 := move_pet_by_delta g p1 d.1.1 d.1.2
       let q2 := move_pet_by_delta g p2 d.2.1 d.2.2
       let q1v := { q1 with velocity_x := -q1.velocity_x, velocity_y := -q1.velocity_y }
       let q2v := { q2 with velocity_x := -q2.velocity_x, velocity_y := -q2.velocity_y }
       ({ q1v with facing_left := decide (q1v.velocity_x < 0) },
        { q2v with facing_left := decide (q2v.velocity_x < 0) })) := by
    unfold bounce_two_pets
    rw [if_neg hne]
  have hm1 : move_pet_by_delta g p1 (push_deltas p1.frame p2.frame).1.1
      (push_deltas p1.frame p2.frame).1.2 =
      { p1 with x := p1.x + (push_deltas p1.frame p2.frame).1.1,
                y := p1.y + (push_deltas p1.frame p2.frame).1.2,
                float_x := ((p1.x + (push_deltas p1.frame p2.frame).1.1 : Int) : ℚ),
                float_y := ((p1.y + (push_deltas p1.frame p2.frame).1.2 : Int) : ℚ) } := by
    unfold move_pet_by_delta
    rw [constrain_eq_self g p1.w p1.h _ _ hb1]
  have hm2 : move_pet_by_delta g p2 (push_deltas p1.frame p2.frame).2.1
      (push_deltas p1.frame p2.frame).2.2 =
      { p2 with x := p2.x + (push_deltas p1.frame p2.frame).2.1,
                y := p2.y + (push_deltas p1.frame p2.frame).2.2,
                float_x := ((p2.x + (push_deltas p1.frame p2.frame).2.1 : Int) : ℚ),
                float_y := ((p2.y + (push_deltas p1.frame p2.frame).2.2 : Int) : ℚ) } := by
    unfold move_pet_by_delta
    rw [constrain_eq_self g p2.w p2.h _ _ hb2]
  rw [hres, hbounce]
  simp only [hm1, hm2]
  refine ⟨?_, trivial, trivial, trivial, trivial, trivial, trivial, trivial, trivial⟩
  exact push_deltas_separates p1.frame p2.frame hw hh hw1 hh1 hx1 hy1 hx2 hy2 hint

/-- Witness for C2 on two concrete overlapping same-size pets. -/
theorem C2_collision_resolution_witness :
    (qIntersects (CollPet.frame ⟨100, 100, 10, 10, 1, 0, 100, 100, false, false⟩)
       (CollPet.frame ⟨105, 100, 10, 10, 2, 3, 105, 100, false, false⟩) = true) ∧
    (qIntersects
      (resolve_two_pets ⟨0, 0, 1000, 1000⟩
        ⟨100, 100, 10, 10, 1, 0, 100, 100, false, false⟩
        ⟨105, 100, 10, 10, 2, 3, 105, 100, false, false⟩).1.frame
      (resolve_two_pets ⟨0, 0, 1000, 1000⟩
        ⟨100, 100, 10, 10, 1, 0, 100, 100, false, false⟩
        ⟨105, 100, 10, 10, 2, 3, 105, 100, false, false⟩).2.frame = false) ∧
    (resolve_two_pets ⟨0, 0, 1000, 1000⟩
        ⟨100, 100, 10, 10, 1, 0, 100, 100, false, false⟩
        ⟨105, 100, 10, 10, 2, 3, 105, 100, false, false⟩).1.velocity_x = -1 := by
  have h := C2_collision_resolution ⟨0, 0, 1000, 1000⟩
    ⟨100, 100, 10, 10, 1, 0, 100, 100, false, false⟩
    ⟨105, 100, 10, 10, 2, 3, 105, 100, false, false⟩
    rfl rfl rfl rfl (by decide) (by decide) (by decide) (by decide) (by decide) (by decide)
    (by decide) (by decide) (by decide)
  exact ⟨by decide, h.1, h.2.1⟩

/-- C2 counterexample: with unequal frame sizes the claim fails even on a
huge screen — a `10`-wide pet whose x-projection lies strictly inside a
`101`-wide pet's is pushed left by 6 while the wide pet moves right by 6,
leaving the frames still intersecting (the clamp is a no-op here: the
final positions equal the pushed positions). -/
theorem C2_counterexample :
    qIntersects (CollPet.frame ⟨10, 0, 10, 100, 1, 1, 10, 0, false, false⟩)
      (CollPet.frame ⟨0, 0, 101, 100, 1, 1, 0, 0, false, false⟩) = true ∧
    (resolve_two_pets ⟨0, 0, 10000, 10000⟩
        ⟨10, 0, 10, 100, 1, 1, 10, 0, false, false⟩
        ⟨0, 0, 101, 100, 1, 1, 0, 0, false, false⟩).1.x = 4 ∧
    (resolve_two_pets ⟨0, 0, 10000, 10000⟩
        ⟨10, 0, 10, 100, 1, 1, 10, 0, false, false⟩
        ⟨0, 0, 101, 100, 1, 1, 0, 0, false, false⟩).2.x = 6 ∧
    qIntersects
      (resolve_two_pets ⟨0, 0, 10000, 10000⟩
        ⟨10, 0, 10, 100, 1, 1, 10, 0, false, false⟩
        ⟨0, 0, 101, 100, 1, 1, 0, 0, false, false⟩).1.frame
      (resolve_two_pets ⟨0, 0, 10000, 10000⟩
        ⟨10, 0, 10, 100, 1, 1, 10, 0, false, false⟩
        ⟨0, 0, 101, 100, 1, 1, 0, 0, false, false⟩).2.frame = true := by
  decide

/-! ## MovementController state and auto_move_tick (src/pet/movement.py) -/

/-- The mutable fields of `MovementController` (floats as ℚ). -/
structure MovementState where
  velocity_x : ℚ
  velocity_y : ℚ
  float_x : ℚ
  float_y : ℚ
  pause_until_ms : Int
  tick_count : Int
  direction_change_interval_ticks : Int
  next_horizontal_change_tick : Int
  next_vertical_change_tick : Int
deriving DecidableEq, Repr

/-- Source `__init__`: velocity `(1.0, 0.0)`, float shadow from the window
position, `pause_until_ms = 0`, `direction_change_interval_ticks =
max(1, int(round(3000 / MOVE_TICK_MS)))`, change ticks at 0. -/
def movement_init (petX petY : Int) : MovementState :=
  { velocity_x := 1, velocity_y := 0,
    float_x := (petX : ℚ), float_y := (petY : ℚ),
    pause_until_ms := 0, tick_count := 0,
    direction_change_interval_ticks := max 1 (pyRound (3000 / MOVE_TICK_MS)),
    next_horizontal_change_tick := 0, next_vertical_change_tick := 0 }

/-- Source `_randomized_speed`: `max(0.2, base_speed * factor)`, where `factor`
models the `random.uniform(0.8, 1.2)` draw. -/
def randomized_speed (base factor : ℚ) : ℚ := max (2 / 10) (base * factor)

/-- Source `_maybe_update_horizontal_velocity`, with the `random.choice` direction
and `random.uniform` factor as parameters. -/
def maybe_update_horizontal_velocity (s : MovementState) (base : ℚ)
    (direction : Int) (factor : ℚ) : MovementState :=
  if s.tick_count < s.next_horizontal_change_tick then s
  else
    { s with velocity_x := (direction : ℚ) * randomized_speed base factor,
             next_horizontal_change_tick :=
               s.tick_count + s.direction_change_interval_ticks }

/-- Source `_maybe_update_vertical_velocity`. -/
def maybe_update_vertical_velocity (s : MovementState) (base : ℚ)
    (direction : Int) (factor : ℚ) : MovementState :=
  if s.tick_count < s.next_vertical_change_tick then s
  else
    { s with velocity_y := (direction : ℚ) * randomized_speed base factor,
             next_vertical_change_tick :=
               s.tick_count + s.direction_change_interval_ticks }

/-- Result of one `auto_move_tick`: the new controller state, whether the
pause guard returned early, and the final window position. -/
structure AutoMoveResult where
  state : MovementState
  paused : Bool
  x : Int
  y : Int

/-- Source `auto_move_tick`: bump the tick counter, maybe re-randomize each axis's
velocity, then return early inside the pause window; otherwise integrate
velocity into the float shadow, clamp to the boundary with an instant
velocity reflection per axis, and resynchronize the float shadow to the
rounded position. -/
def auto_move_tick (g : QRect) (petW petH petX petY now_ms : Int)
    (dirH : Int) (factorH : ℚ) (dirV : Int) (factorV : ℚ)
    (s : MovementState) : AutoMoveResult :=
  let bx := base_speed_x g petW
  let bv := base_speed_y g petH
  let s1 := { s with tick_count := s.tick_count + 1 }
  let s2 := maybe_update_horizontal_velocity s1 bx dirH factorH
  let s3 := maybe_update_vertical_velocity s2 bv dirV factorV
  if now_ms < s3.pause_until_ms then ⟨s3, true, petX, petY⟩
  else
    let fx := s3.float_x + s3.velocity_x
    let fy := s3.float_y + s3.velocity_y
    let rx := pyRound fx
    let ry := pyRound fy
    let min_x := g.left
    let max_x := g.right - petW
    let min_y := g.top
    let max_y := g.bottom - petH
    let nx := if rx < min_x then min_x else if rx > max_x then max_x else rx
    let vx := if rx < min_x then |s3.velocity_x|
      else if rx > max_x then -|s3.velocity_x| else s3.velocity_x
    let ny := if ry < min_y then min_y else if ry > max_y then max_y else ry
    let vy := if ry < min_y then |s3.velocity_y|
      else if ry > max_y then -|s3.velocity_y| else s3.velocity_y
    ⟨{ s3 with velocity_x := vx, velocity_y := vy,
               float_x := (nx : ℚ), float_y := (ny : ℚ) }, false, nx, ny⟩

/-- Every mutation of the `MovementController` state found in the source:
its own methods plus the velocity negation performed by the instance
manager's collision response.  No operation anywhere assigns
`pause_until_ms`. -/
inductive MovementOp where
  | sync_float (petX petY : Int)
  | constrain (g : QRect) (petW petH petX petY : Int)
  | follow_tick (g : QRect) (petW petH petX petY cx cy : Int)
  | auto_tick (g : QRect) (petW petH petX petY now_ms : Int)
      (dirH : Int) (factorH : ℚ) (dirV : Int) (factorV : ℚ)
  | bounce_negate
deriving Repr

/-- Apply one operation to the movement state. -/
def apply_movement_op (s : MovementState) (op : MovementOp) : MovementState :=
  match op with
  | MovementOp.sync_float px py => { s with float_x := (px : ℚ), float_y := (py : ℚ) }
  | MovementOp.constrain g w h x y =>
      { s with float_x := ((constrain_to_screen g w h x y).1 : ℚ),
               float_y := ((constrain_to_screen g w h x y).2 : ℚ) }
  | MovementOp.follow_tick g w h x y cx cy =>
      let out := follow_cursor_tick g w h x y cx cy
      if out.moved then { s with float_x := (out.x : ℚ), float_y := (out.y : ℚ) } else s
  | MovementOp.auto_tick g w h x y now dH fH dV fV =>
      (auto_move_tick g w h x y now dH fH dV fV s).state
  | MovementOp.bounce_negate =>
      { s with velocity_x := -s.velocity_x, velocity_y := -s.velocity_y }

/-- Run a sequence of operations from a freshly constructed controller. -/
def run_movement_ops (petX petY : Int) (ops : List MovementOp) : MovementState :=
  ops.foldl apply_movement_op (movement_init petX petY)

/-- Helper: the horizontal velocity re-randomization never touches
`pause_until_ms`. -/
theorem maybe_h_pause (s : MovementState) (base : ℚ) (d : Int) (f : ℚ) :
    (maybe_update_horizontal_velocity s base d f).pause_until_ms = s.pause_until_ms := by
  unfold maybe_update_horizontal_velocity
  split_ifs <;> rfl

/-- Helper: the vertical velocity re-randomization never touches
`pause_until_ms`. -/
theorem maybe_v_pause (s : MovementState) (base : ℚ) (d : Int) (f : ℚ) :
    (maybe_update_vertical_velocity s base d f).pause_until_ms = s.pause_until_ms := by
  unfold maybe_update_vertical_velocity
  split_ifs <;> rfl

/-- Helper: no operation changes `pause_until_ms`. -/
theorem apply_movement_op_pause (s : MovementState) (op : MovementOp) :
    (apply_movement_op s op).pause_until_ms = s.pause_until_ms := by
  cases op with
  | sync_float px py => rfl
  | constrain g w h x y => rfl
  | follow_tick g w h x y cx cy =>
      simp only [apply_movement_op]
      split_ifs <;> rfl
  | auto_tick g w h x y now dH fH dV fV =>
      simp only [apply_movement_op, auto_move_tick]
      split_ifs <;> simp [maybe_h_pause, maybe_v_pause]
  | bounce_negate => rfl

/-- Helper: `pause_until_ms` stays at its initial value 0 under every
sequence of operations. -/
theorem run_movement_ops_pause (petX petY : Int) (ops : List MovementOp) :
    (run_movement_ops petX petY ops).pause_until_ms = 0 := by
  suffices h : ∀ (l : List MovementOp) (s : MovementState),
      (l.foldl apply_movement_op s).pause_until_ms = s.pause_until_ms by
    rw [run_movement_ops, h]
    rfl
  intro l
  induction l with
  | nil => intro s; rfl
  | cons op rest ih =>
      intro s
      rw [List.foldl_cons, ih, apply_movement_op_pause]

/-- C10: `pause_until_ms` is 0 initially and after any sequence of
controller operations (no operation of `MovementController` or its callers
assigns it), so for any nonnegative clock value the pause guard in
`auto_move_tick` never returns early: the tick always proceeds to
integrate velocity. -/
theorem C10_pause_never_fires (petX petY : Int) (ops : List MovementOp)
    (g : QRect) (petW petH x y now_ms : Int)
    (dirH : Int) (factorH : ℚ) (dirV : Int) (factorV : ℚ)
    (hnow : 0 ≤ now_ms) :
    (run_movement_ops petX petY ops).pause_until_ms = 0 ∧
    (auto_move_tick g petW petH x y now_ms dirH factorH dirV factorV
      (run_movement_ops petX petY ops)).paused = false := by
  refine ⟨run_movement_ops_pause petX petY ops, ?_⟩
  unfold auto_move_tick
  rw [if_neg]
  rw [maybe_v_pause, maybe_h_pause]
  show ¬ now_ms < ({ run_movement_ops petX petY ops with
    tick_count := (run_movement_ops petX petY ops).tick_count + 1 }).pause_until_ms
  have h0 := run_movement_ops_pause petX petY ops
  simp only []
  omega

/-- Witness for C10 with an empty operation list and clock value 5. -/
theorem C10_pause_never_fires_witness :
    (0 : Int) ≤ 5 ∧
    ((run_movement_ops 0 0 []).pause_until_ms = 0 ∧
     (auto_move_tick ⟨0, 0, 100, 100⟩ 10 10 0 0 5 1 1 0 1
       (run_movement_ops 0 0 [])).paused = false) :=
  ⟨by decide,
   C10_pause_never_fires 0 0 [] ⟨0, 0, 100, 100⟩ 10 10 0 0 5 1 1 0 1 (by decide)⟩

end Ameath

